import Mathlib

/-!
Verification development for the neuropathology concept-extraction pipeline
(`src/app.py`). The script defines three `JsonObjectConcept` extraction
targets, builds a `Document` from PDF text, runs a segmenter and the
ContextGem extraction orchestrator over a primary LLM endpoint, and formats
the per-concept extracted items into a text report.

The concept schemas and the result formatter are embedded directly from
`src/app.py`. The extraction orchestrator, `Document` construction and
`segment()` live in the ContextGem library, which is not part of the
repository source; those parts are modelled from the specification
(sections 4.2 to 4.4 and 7), as noted on each definition.
-/

namespace ContextgemDemo

/-- A parsed JSON value, as produced by parsing an LLM response body. -/
inductive JValue where
  | jint (n : Int)
  | jstr (s : String)
  | jbool (b : Bool)
  | jarr (elems : List JValue)
  | jobj (fields : List (String × JValue))
deriving Repr

/-- A value schema, the shape of the `json_schema` dictionaries passed to
`JsonObjectConcept` in `src/app.py`: integer fields may carry `minimum` and
`maximum` bounds, objects carry named properties and a `required` key list,
arrays carry an item schema. -/
inductive Schema where
  | sInt (lo hi : Option Int)
  | sStr
  | sBool
  | sObj (props : List (String × Schema)) (required : List String)
  | sArr (items : Schema)
deriving Repr

/-- Field lookup in a parsed JSON object, first occurrence. -/
def lookupField (fields : List (String × JValue)) (k : String) : Option JValue :=
  match fields with
  | [] => none
  | (k₂, v) :: rest => if k₂ = k then some v else lookupField rest k

mutual

/-- JSON-schema validation of a parsed value: integers must satisfy the
bounds, required object keys must be present, listed properties that are
present must validate recursively, array elements must all validate.
Additional object properties are allowed, matching the schemas in
`src/app.py`, which never set additionalProperties. -/
def validate : Schema → JValue → Bool
  | .sInt lo hi, .jint n =>
      (match lo with | some l => decide (l ≤ n) | none => true) &&
      (match hi with | some h => decide (n ≤ h) | none => true)
  | .sStr, .jstr _ => true
  | .sBool, .jbool _ => true
  | .sObj props required, .jobj fields =>
      requiredPresent required fields && validateProps props fields
  | .sArr s, .jarr elems => validateList s elems
  | _, _ => false

/-- Check that every required key occurs in the object. -/
def requiredPresent : List String → List (String × JValue) → Bool
  | [], _ => true
  | k :: rest, fields => (lookupField fields k).isSome && requiredPresent rest fields

/-- Check every declared property that is present in the object. -/
def validateProps : List (String × Schema) → List (String × JValue) → Bool
  | [], _ => true
  | (k, s) :: rest, fields =>
      (match lookupField fields k with
       | some v => validate s v
       | none => true) && validateProps rest fields

/-- Check every element of an array against the item schema. -/
def validateList : Schema → List JValue → Bool
  | _, [] => true
  | s, v :: rest => validate s v && validateList s rest

end

/-- A concept definition: name, description, value schema and provenance
options, mirroring the `JsonObjectConcept` constructor calls in
`src/app.py`. -/
structure ConceptDef where
  name : String
  description : String
  json_schema : Schema
  add_references : Bool
  reference_depth : String
  add_justifications : Bool
  justification_depth : String
deriving Repr

/-- The `ABC_Staging` concept of `src/app.py` (lines 44-61): three integer
scores bounded by 0 and 3 plus a likelihood string, all required. -/
def abc_concept : ConceptDef :=
  { name := "ABC_Staging"
    description := "Extract NIA-AA ABC score: A, B, C and overall likelihood."
    json_schema := .sObj
      [("A", .sInt (some 0) (some 3)),
       ("B", .sInt (some 0) (some 3)),
       ("C", .sInt (some 0) (some 3)),
       ("likelihood", .sStr)]
      ["A", "B", "C", "likelihood"]
    add_references := true
    reference_depth := "sentences"
    add_justifications := true
    justification_depth := "brief" }

/-- The `Anatomical_Entities` concept of `src/app.py` (lines 64-83): an
array of objects with term, fma_id and description, all required. -/
def anat_concept : ConceptDef :=
  { name := "Anatomical_Entities"
    description := "List anatomical structures with FMA ID and description."
    json_schema := .sArr (.sObj
      [("term", .sStr), ("fma_id", .sStr), ("description", .sStr)]
      ["term", "fma_id", "description"])
    add_references := true
    reference_depth := "sentences"
    add_justifications := true
    justification_depth := "brief" }

/-- The `Anatomical_Asymmetries` concept of `src/app.py` (lines 86-106): an
array of objects where structure, left and right are required and comment is
optional. -/
def asymmetry_concept : ConceptDef :=
  { name := "Anatomical_Asymmetries"
    description := "Extract all mentions of anatomical asymmetries."
    json_schema := .sArr (.sObj
      [("structure", .sStr), ("left", .sStr), ("right", .sStr), ("comment", .sStr)]
      ["structure", "left", "right"])
    add_references := true
    reference_depth := "sentences"
    add_justifications := true
    justification_depth := "brief" }

/-- Transport-level failures of one `invoke` call (spec section 4.3). -/
inductive TransportError where
  | connection
  | timeout
  | auth
deriving DecidableEq, Repr

/-- The kind of prompt an invocation carries: the initial extraction prompt
built from document, description and schema, or the augmented correction
prompt issued after a validation failure (spec section 4.4, step 3). -/
inductive PromptKind where
  | initial
  | correction
deriving DecidableEq, Repr

/-- Outcome of one `invoke` call: a transport failure, or a raw text
response whose parse as JSON either fails (`none`, malformed JSON) or
yields a value (`some v`, still to be schema-validated). -/
inductive InvokeResult where
  | failure (e : TransportError)
  | response (body : Option JValue)
deriving Repr

/-- One recorded LLM invocation: which descriptor in the fallback chain was
called (its index) and with which prompt kind. -/
structure Call where
  desc : Nat
  kind : PromptKind
deriving DecidableEq, Repr

/-- Result of running one descriptor on one concept: validated item
value(s), or escalation to the next descriptor in the chain. -/
inductive AttemptResult where
  | items (v : JValue)
  | escalate
deriving Repr

/-- Final per-concept outcome: extracted item values, or a failed concept
recorded with an empty item sequence (spec section 4.4, step 4). -/
inductive Outcome where
  | ok (items : List JValue)
  | failed
deriving Repr

/-- Item sequence surfaced for an outcome; a failed concept surfaces zero
items. -/
def Outcome.items : Outcome → List JValue
  | .ok xs => xs
  | .failed => []

/-- Modelled from the spec: the correction retry of section 4.4, step 3.
Missing from src (it lives inside ContextGem's extraction engine). Given
the result of the single correction invocation against the same
descriptor, a validated value succeeds and anything else escalates to
step 4; both invocations are recorded. -/
def retryStep (second : InvokeResult) (valid : JValue → Bool) :
    AttemptResult × List PromptKind :=
  match second with
  | .failure _ => (.escalate, [.initial, .correction])
  | .response none => (.escalate, [.initial, .correction])
  | .response (some v) =>
      if valid v then (.items v, [.initial, .correction])
      else (.escalate, [.initial, .correction])

/-- Modelled from the spec: one descriptor attempt (section 4.4, steps 2-3).
Missing from src (ContextGem extraction engine). A transport failure
escalates at once; a response that parses and validates yields items; a
malformed or invalid response triggers exactly one correction retry against
the same descriptor. -/
def attemptStep (first second : InvokeResult) (valid : JValue → Bool) :
    AttemptResult × List PromptKind :=
  match first with
  | .failure _ => (.escalate, [.initial])
  | .response none => retryStep second valid
  | .response (some v) =>
      if valid v then (.items v, [.initial])
      else retryStep second valid

/-- Run one descriptor given the transport oracle for that descriptor. -/
def runAttempt (env : PromptKind → InvokeResult) (valid : JValue → Bool) :
    AttemptResult × List PromptKind :=
  attemptStep (env .initial) (env .correction) valid

/-- Item construction from a validated response value: an array concept
yields one item per element, an object concept yields a single item whose
value is the parsed response body. -/
def mkItems (schema : Schema) (v : JValue) : List JValue :=
  match schema, v with
  | .sArr _, .jarr elems => elems
  | _, _ => [v]

/-- Modelled from the spec: the per-concept fallback walk of section 4.4,
step 4. Missing from src (ContextGem extraction engine). The chain is the
finite list of descriptor indices starting at the primary; the transport
oracle `env` gives each descriptor's response to each prompt kind. On
escalation the next descriptor is tried for this concept only; an exhausted
chain records the concept as failed. The second component is the trace of
all LLM invocations made, in order. -/
def runChain (env : Nat → PromptKind → InvokeResult) (schema : Schema) :
    List Nat → Outcome × List Call
  | [] => (.failed, [])
  | d :: rest =>
      match runAttempt (env d) (validate schema) with
      | (.items v, kinds) =>
          (.ok (mkItems schema v), kinds.map (fun k => ⟨d, k⟩))
      | (.escalate, kinds) =>
          let r := runChain env schema rest
          (r.1, kinds.map (fun k => ⟨d, k⟩) ++ r.2)

/-- Modelled from the spec: the batch orchestrator (section 4.4, step 5).
Missing from src (ContextGem's `extract_all`). Concepts are processed
independently in order; the result is the per-concept mapping from concept
name to outcome, together with the concatenated invocation trace. -/
def runBatch (env : String → Nat → PromptKind → InvokeResult)
    (chain : List Nat) : List ConceptDef → List (String × Outcome) × List Call
  | [] => ([], [])
  | c :: rest =>
      let r := runChain (env c.name) c.json_schema chain
      let rs := runBatch env chain rest
      ((c.name, r.1) :: rs.1, r.2 ++ rs.2)

/-- A document span with its text and start offset (spec section 3). -/
structure Span where
  text : String
  offset : Nat
deriving DecidableEq, Repr

/-- Modelled from the spec: the Document data type of section 4.2. Missing
from src (ContextGem `Document`). Raw text plus an optional segmentation
into spans. -/
structure Document where
  raw_text : String
  spans : Option (List Span)
deriving Repr

/-- Construction-time errors (spec section 7). -/
inductive PipelineError where
  | emptyDocument
deriving DecidableEq, Repr

/-- Checks that a string is empty or holds only whitespace characters. -/
def isBlank (text : String) : Bool :=
  text.data.all Char.isWhitespace

/-- Modelled from the spec: Document construction (section 4.2), missing
from src. Fails with `EmptyDocumentError` on empty or whitespace-only raw
text; otherwise the document starts unsegmented. -/
def mkDocument (text : String) : Except PipelineError Document :=
  if isBlank text then .error .emptyDocument
  else .ok { raw_text := text, spans := none }

/-- Splits a character list into sentence spans at periods, tracking the
start offset of each span. -/
def segChars : List Char → Nat → List Char → List Span
  | [], pos, acc =>
      if acc.isEmpty then []
      else [{ text := String.mk acc.reverse, offset := pos - acc.length }]
  | c :: rest, pos, acc =>
      if c = '.' then
        { text := String.mk (c :: acc).reverse, offset := pos - acc.length }
          :: segChars rest (pos + 1) []
      else segChars rest (pos + 1) (c :: acc)

/-- Sentence spans of a raw text, a deterministic function of the text. -/
def computeSpans (raw : String) : List Span :=
  segChars raw.data 0 []

/-- Modelled from the spec: `segment()` (section 4.2), missing from src
(the `SegmentAndTagSegmenter` of the ContextGem library). Segmentation
recomputes the span partition deterministically from the raw text, which
it never changes. -/
def segment (d : Document) : Document :=
  { d with spans := some (computeSpans d.raw_text) }

/-- Modelled from the spec: the full extraction run of `extract_concepts`
in `src/app.py` (lines 109-132), with the LLM transport abstracted as the
oracle `env`. Construction-time errors abort before any LLM call, so the
invocation trace of a failed construction is empty. -/
def runPipeline (text : String) (env : String → Nat → PromptKind → InvokeResult)
    (chain : List Nat) (concepts : List ConceptDef) :
    Except PipelineError (List (String × Outcome)) × List Call :=
  match mkDocument text with
  | .error e => (.error e, [])
  | .ok doc =>
      let _segmented := segment doc
      let r := runBatch env chain concepts
      (.ok r.1, r.2)

/-- A provenance reference attached to an extracted item; the formatter in
`src/app.py` reads its `text` attribute. -/
structure Ref where
  text : String
deriving DecidableEq, Repr

/-- An extracted item as the formatter of `src/app.py` consumes it: a
value, a justification and an ordered reference list. -/
structure FItem where
  value : JValue
  justification : String
  references : List Ref
deriving Repr

/-- Python `str()` as applied by the formatter's f-string interpolations in
`src/app.py`. Every field the formatter interpolates is typed integer or
string by the three schemas, so the container branches are never reached on
schema-conformant values. -/
def pyStr : JValue → String
  | .jint n => toString n
  | .jstr s => s
  | .jbool b => if b then "True" else "False"
  | .jarr _ => "<array>"
  | .jobj _ => "<object>"

/-- Python subscription `val[k]` on a parsed JSON object: `none` models the
KeyError raised when the key is absent or the value is not an object. -/
def jget (v : JValue) (k : String) : Option JValue :=
  match v with
  | .jobj fields => lookupField fields k
  | _ => none

/-- Python `val.get(k, d)` followed by f-string interpolation: the field's
rendering when present, the default string otherwise. -/
def jgetD (v : JValue) (k : String) (d : String) : String :=
  match jget v k with
  | some u => pyStr u
  | none => d

/-- The `Source:` lines emitted for an item's references (`src/app.py`
lines 144-145, 155-156, 171-172), with the per-section indentation. -/
def refLines (indent : String) (refs : List Ref) : String :=
  String.join (refs.map (fun r => indent ++ "Source: " ++ r.text ++ "\n"))

/-- The ABC staging section of the formatter (`src/app.py` lines 138-146):
when the item list is nonempty, the first item is rendered under an
`ABC Staging:` header; when it is empty, the whole block, header included,
is skipped. `none` models a raised KeyError. -/
def formatAbc (items : List FItem) : Option String :=
  match items with
  | [] => some ("")
  | abc :: _ =>
      match jget abc.value ("A"), jget abc.value ("B"),
            jget abc.value ("C"), jget abc.value ("likelihood") with
      | some a, some b, some c, some l =>
          some ("ABC Staging:\nA: " ++ pyStr a ++ ", B: " ++ pyStr b
            ++ ", C: " ++ pyStr c ++ ", Likelihood: " ++ pyStr l ++ "\n"
            ++ "Justification: " ++ abc.justification ++ "\n"
            ++ refLines ("") abc.references ++ "\n")
      | _, _, _, _ => none

/-- One anatomical-entities line group (`src/app.py` lines 151-156): term,
FMA id and description are subscripted unconditionally. -/
def formatAnatItem (item : FItem) : Option String :=
  match jget item.value ("term"), jget item.value ("fma_id"),
        jget item.value ("description") with
  | some t, some f, some d =>
      some ("- " ++ pyStr t ++ " (FMA: " ++ pyStr f ++ "): " ++ pyStr d ++ "\n"
        ++ "  Justification: " ++ item.justification ++ "\n"
        ++ refLines ("  ") item.references)
  | _, _, _ => none

/-- One anatomical-asymmetries line group (`src/app.py` lines 162-172):
structure, left and right are subscripted unconditionally, while comment is
read with `val.get` defaulting to the empty string. -/
def formatAsymItem (item : FItem) : Option String :=
  match jget item.value ("structure"), jget item.value ("left"),
        jget item.value ("right") with
  | some s, some l, some r =>
      some ("- Structure: " ++ pyStr s ++ "\n  Left: " ++ pyStr l
        ++ "\n  Right: " ++ pyStr r
        ++ "\n  Comment: " ++ jgetD item.value ("comment") ("") ++ "\n"
        ++ "  Justification: " ++ item.justification ++ "\n"
        ++ refLines ("  ") item.references)
  | _, _, _ => none

/-- The result formatter of `src/app.py` (lines 135-173): the ABC block
(rendered only when nonempty), then the `Anatomical Entities:` header with
its items, then the `Anatomical Asymmetries:` header with its items, each
section followed by a blank line. `none` models a raised KeyError. -/
def formatResults (abc anat asym : List FItem) : Option String := do
  let a ← formatAbc abc
  let ns ← anat.mapM formatAnatItem
  let ss ← asym.mapM formatAsymItem
  pure (a ++ "Anatomical Entities:\n" ++ String.join ns ++ "\n"
    ++ "Anatomical Asymmetries:\n" ++ String.join ss ++ "\n")

/-- One chat prompt of the stashed metadata read by the debug branch of
`src/app.py` (lines 176-182). -/
structure ChatPrompt where
  role : String
  content : String
deriving DecidableEq, Repr

/-- The joined prompt rendering of `src/app.py` line 179. -/
def renderPrompts (ps : List ChatPrompt) : String :=
  String.intercalate ("\n")
    (ps.map (fun p => "[" ++ p.role ++ "] " ++ p.content))

/-- The debug branch of `src/app.py` (lines 176-182): with prompt metadata
present it appends the prompt chain, otherwise it appends an explicit
absence marker instead of failing. -/
def debugSection (internal : List ChatPrompt) : String :=
  if internal.isEmpty then "\n\n[No prompt metadata available]"
  else "\n\nLLM Prompts:\n" ++ renderPrompts internal

/-- The full output of `extract_concepts` after formatting (`src/app.py`
lines 135-184): the formatted results, with the debug section appended when
`show_prompt` is set. -/
def extractOutput (formatted : Option String) (show_prompt : Bool)
    (internal : List ChatPrompt) : Option String :=
  formatted.map (fun o => if show_prompt then o ++ debugSection internal else o)

/-- The recorded exchange of every invocation attempt: the request (which
descriptor, which prompt kind) paired with the transport's response. -/
def exchanges (env : Nat → PromptKind → InvokeResult) (tr : List Call) :
    List (Call × InvokeResult) :=
  tr.map (fun c => (c, env c.desc c.kind))

/-- The last request and response payload issued to the LLM transport,
made available for audit and debugging (spec sections 6 and 9). -/
def lastExchange (env : Nat → PromptKind → InvokeResult) (tr : List Call) :
    Option (Call × InvokeResult) :=
  (exchanges env tr).getLast?

/-- Modelled from the spec: the process-wide configuration of section 3,
constructed once per process. Missing from src only in that ContextGem owns
the descriptor objects; the concept list itself is the module-level triple
of `src/app.py` line 121. -/
structure ProcessConfig where
  concepts : List ConceptDef
  chain : List Nat
deriving Repr

/-- One extraction run over the shared process configuration, with explicit
state passing: the run returns its result together with the configuration
state it leaves behind for later runs. -/
def runExtraction (cfg : ProcessConfig)
    (env : String → Nat → PromptKind → InvokeResult) (text : String) :
    (Except PipelineError (List (String × Outcome)) × List Call) × ProcessConfig :=
  (runPipeline text env cfg.chain cfg.concepts, cfg)

/-- Prefix test on character lists, used to state substring facts about
formatter output. -/
def hasPrefixL : List Char → List Char → Bool
  | [], _ => true
  | _ :: _, [] => false
  | p :: ps, c :: cs => p == c && hasPrefixL ps cs

/-- Infix test on character lists. -/
def hasInfixL (pat : List Char) : List Char → Bool
  | [] => hasPrefixL pat []
  | c :: cs => hasPrefixL pat (c :: cs) || hasInfixL pat cs

/-- Substring test on strings. -/
def strContains (s pat : String) : Bool :=
  hasInfixL pat.data s.data

/-- The parsed body of the valid ABC staging response of the end-to-end
scenario: A 3, B 3, C 2, likelihood High. -/
def abcValue : JValue :=
  .jobj [("A", .jint 3), ("B", .jint 3), ("C", .jint 2),
         ("likelihood", .jstr ("High"))]

/-- Transport oracle whose every invocation answers with the valid ABC
staging response. -/
def envAbcOk : Nat → PromptKind → InvokeResult :=
  fun _ _ => .response (some abcValue)

/-- Transport oracle where the primary descriptor fails with a connection
error and the fallback descriptor returns malformed JSON on every prompt. -/
def envConnThenMalformed : Nat → PromptKind → InvokeResult :=
  fun d _ => if d = 0 then .failure .connection else .response none

/-- Transport oracle where the primary descriptor fails with a connection
error and the fallback descriptor returns the valid ABC response. -/
def envConnThenOk : Nat → PromptKind → InvokeResult :=
  fun d _ => if d = 0 then .failure .connection else .response (some abcValue)

/-- Transport oracle whose initial response is malformed JSON and whose
correction retry returns the valid ABC response. -/
def envMalformedThenOk : PromptKind → InvokeResult :=
  fun k => match k with
  | .initial => .response none
  | .correction => .response (some abcValue)

/-- Checks that an invocation result is a validation failure for the given
validator: a response that is malformed JSON or parses to a value the
schema rejects. Transport failures are not validation failures. -/
def validationFails (r : InvokeResult) (valid : JValue → Bool) : Bool :=
  match r with
  | .failure _ => false
  | .response none => true
  | .response (some v) => !valid v

/-- The correction retry records both invocations of the descriptor. -/
theorem retryStep_kinds (s : InvokeResult) (valid : JValue → Bool) :
    (retryStep s valid).2 = [PromptKind.initial, PromptKind.correction] := by
  unfold retryStep
  rcases s with e | body
  · rfl
  · rcases body with _ | v
    · rfl
    · by_cases h : valid v = true <;> simp [h]

/-- One descriptor attempt issues either the initial invocation alone or
the initial invocation followed by one correction retry. -/
theorem attempt_kinds (env : PromptKind → InvokeResult) (valid : JValue → Bool) :
    (runAttempt env valid).2 = [PromptKind.initial]
    ∨ (runAttempt env valid).2 = [PromptKind.initial, PromptKind.correction] := by
  unfold runAttempt attemptStep
  rcases env PromptKind.initial with e | body
  · exact Or.inl rfl
  · rcases body with _ | v
    · exact Or.inr (retryStep_kinds _ _)
    · by_cases h : valid v = true
      · simp [h]
      · simp [h, retryStep_kinds]

/-- The trace of a one-descriptor chain is that descriptor's attempt trace. -/
theorem runChain_singleton (env : Nat → PromptKind → InvokeResult)
    (schema : Schema) (d : Nat) :
    (runChain env schema [d]).2
      = ((runAttempt (env d) (validate schema)).2).map (fun k => ⟨d, k⟩) := by
  unfold runChain
  rcases hr : runAttempt (env d) (validate schema) with ⟨r, kinds⟩
  rcases r with v | _ <;> simp [hr, runChain]

/-- C1: for every Concept schema and every LLM response that conforms to
it, the extraction run produces ExtractedItems whose value deep-equals the
parsed response body, with a single initial invocation of the primary and
no fallback; in particular the `ABC_Staging` concept with the valid
response A 3, B 3, C 2, likelihood High yields exactly one item with that
exact value, and the formatter surfaces it. -/
theorem c1_conforming_response_extracted (schema : Schema) (v : JValue)
    (env : Nat → PromptKind → InvokeResult) (rest : List Nat)
    (h1 : env 0 PromptKind.initial = InvokeResult.response (some v))
    (h2 : validate schema v = true) :
    runChain env schema (0 :: rest)
      = (Outcome.ok (mkItems schema v), [⟨0, PromptKind.initial⟩])
    ∧ validate abc_concept.json_schema abcValue = true
    ∧ mkItems abc_concept.json_schema abcValue = [abcValue]
    ∧ formatResults [⟨abcValue, "Likely AD", []⟩] [] []
      = some ("ABC Staging:\nA: 3, B: 3, C: 2, Likelihood: High\nJustification: Likely AD\n\nAnatomical Entities:\n\nAnatomical Asymmetries:\n\n") := by
  refine ⟨?_, ?_, rfl, rfl⟩
  · simp [runChain, runAttempt, attemptStep, h1, h2]
  · simp [validate, requiredPresent, validateProps, validateList, lookupField,
      abc_concept, abcValue]

/-- Witness for C1 at the end-to-end scenario inputs. -/
theorem c1_witness :
    envAbcOk 0 PromptKind.initial = InvokeResult.response (some abcValue)
    ∧ validate abc_concept.json_schema abcValue = true
    ∧ runChain envAbcOk abc_concept.json_schema (0 :: [1])
      = (Outcome.ok (mkItems abc_concept.json_schema abcValue),
         [⟨0, PromptKind.initial⟩]) :=
  ⟨rfl,
    by simp [validate, requiredPresent, validateProps, validateList,
      lookupField, abc_concept, abcValue],
    (c1_conforming_response_extracted abc_concept.json_schema abcValue
      envAbcOk [1] rfl
      (by simp [validate, requiredPresent, validateProps, validateList,
        lookupField, abc_concept, abcValue])).1⟩

/-- C3: an initial response that is malformed JSON or fails schema
validation triggers exactly one correction retry against the same
descriptor before any escalation, and no attempt ever issues more than one
correction invocation. -/
theorem c3_one_correction_retry (env : PromptKind → InvokeResult)
    (valid : JValue → Bool)
    (h : validationFails (env PromptKind.initial) valid = true) :
    (runAttempt env valid).2 = [PromptKind.initial, PromptKind.correction]
    ∧ ∀ (e : PromptKind → InvokeResult) (w : JValue → Bool),
        ((runAttempt e w).2.count PromptKind.correction) ≤ 1 := by
  constructor
  · unfold runAttempt attemptStep
    rcases h1 : env PromptKind.initial with e | body
    · rw [h1] at h; simp [validationFails] at h
    · rcases body with _ | v
      · exact retryStep_kinds _ _
      · rw [h1] at h
        simp [validationFails] at h
        simp [h, retryStep_kinds]
  · intro e w
    rcases attempt_kinds e w with h2 | h2 <;> rw [h2] <;> decide

/-- Witness for C3: a malformed initial response followed by a valid
correction response issues exactly the initial and one correction call. -/
theorem c3_witness :
    validationFails (envMalformedThenOk PromptKind.initial)
      (validate abc_concept.json_schema) = true
    ∧ (runAttempt envMalformedThenOk (validate abc_concept.json_schema)).2
      = [PromptKind.initial, PromptKind.correction] :=
  ⟨rfl, (c3_one_correction_retry envMalformedThenOk
    (validate abc_concept.json_schema) rfl).1⟩

/-- C5 counterexample: with an empty `ABC_Staging` item sequence the
formatter renders no `ABC Staging` header at all — the whole block is
skipped — while the other two concept headers are rendered. -/
theorem c5_counterexample :
    formatResults [] [] []
      = some ("Anatomical Entities:\n\nAnatomical Asymmetries:\n\n")
    ∧ strContains ("Anatomical Entities:\n\nAnatomical Asymmetries:\n\n")
        ("ABC Staging") = false
    ∧ strContains ("Anatomical Entities:\n\nAnatomical Asymmetries:\n\n")
        ("Anatomical Entities:") = true := by
  refine ⟨rfl, by decide, by decide⟩

/-- C5 amended: the formatter renders the sections deterministically in the
declared concept order with items in list order; an empty
`Anatomical_Entities` or `Anatomical_Asymmetries` list renders its header
with no body and an empty `ABC_Staging` list renders nothing (header
omitted), in every case without error. -/
theorem c5_sections_in_order (abc anat asym : List FItem) (a : String)
    (ns ss : List String)
    (h1 : formatAbc abc = some a)
    (h2 : anat.mapM formatAnatItem = some ns)
    (h3 : asym.mapM formatAsymItem = some ss) :
    formatResults abc anat asym
      = some (a ++ "Anatomical Entities:\n" ++ String.join ns ++ "\n"
          ++ "Anatomical Asymmetries:\n" ++ String.join ss ++ "\n")
    ∧ formatAbc [] = some ("")
    ∧ formatResults [] anat asym
      = some ("" ++ "Anatomical Entities:\n" ++ String.join ns ++ "\n"
          ++ "Anatomical Asymmetries:\n" ++ String.join ss ++ "\n") := by
  refine ⟨?_, rfl, ?_⟩
  · unfold formatResults
    rw [h1, h2, h3]
    rfl
  · unfold formatResults
    rw [h2, h3]
    rfl

/-- Witness for C5 at empty item lists: both remaining headers are
rendered with no body and no error is raised. -/
theorem c5_witness :
    formatResults [] [] []
      = some ("" ++ "Anatomical Entities:\n" ++ String.join [] ++ "\n"
          ++ "Anatomical Asymmetries:\n" ++ String.join [] ++ "\n") :=
  (c5_sections_in_order [] [] [] "" [] [] rfl rfl rfl).1

/-- C2 counterexample: with the primary hitting a connection error and the
configured fallback answering malformed JSON, the fallback descriptor is
invoked twice (initial invocation plus the correction retry), not exactly
once. -/
theorem c2_counterexample :
    envConnThenMalformed 0 PromptKind.initial
      = InvokeResult.failure TransportError.connection
    ∧ ((runChain envConnThenMalformed abc_concept.json_schema [0, 1]).2.countP
        (fun c => c.desc == 1)) = 2 := by
  exact ⟨rfl, by decide⟩

/-- C2 amended: on a primary-descriptor connection error with a configured
fallback, the orchestrator performs exactly one fallback hop — the
concept's final outcome is the fallback descriptor's own outcome, reached
after the single failed primary invocation — and the fallback descriptor is
invoked once, or twice when its first response fails validation (the single
correction retry); with no fallback configured the concept's result is
failed with zero items. -/
theorem c2_fallback_hop (env : Nat → PromptKind → InvokeResult)
    (schema : Schema)
    (h : env 0 PromptKind.initial = InvokeResult.failure TransportError.connection) :
    (runChain env schema [0, 1]).1 = (runChain env schema [1]).1
    ∧ (runChain env schema [0, 1]).2
      = ⟨0, PromptKind.initial⟩ :: (runChain env schema [1]).2
    ∧ 1 ≤ ((runChain env schema [0, 1]).2.countP (fun c => c.desc == 1))
    ∧ ((runChain env schema [0, 1]).2.countP (fun c => c.desc == 1)) ≤ 2
    ∧ runChain env schema [0] = (Outcome.failed, [⟨0, PromptKind.initial⟩])
    ∧ (runChain env schema [0]).1.items = [] := by
  have hA : runAttempt (env 0) (validate schema)
      = (AttemptResult.escalate, [PromptKind.initial]) := by
    unfold runAttempt attemptStep
    rw [h]
  have hMain : runChain env schema [0, 1]
      = ((runChain env schema [1]).1,
         ⟨0, PromptKind.initial⟩ :: (runChain env schema [1]).2) := by
    conv_lhs => rw [runChain]
    rw [hA]
    rfl
  have hTail : (runChain env schema [1]).2
      = ((runAttempt (env 1) (validate schema)).2).map (fun k => ⟨1, k⟩) :=
    runChain_singleton env schema 1
  refine ⟨by rw [hMain], by rw [hMain], ?_, ?_, ?_, ?_⟩
  · rw [hMain, hTail]
    rcases attempt_kinds (env 1) (validate schema) with hk | hk <;> rw [hk] <;>
      simp [List.countP_cons]
  · rw [hMain, hTail]
    rcases attempt_kinds (env 1) (validate schema) with hk | hk <;> rw [hk] <;>
      simp [List.countP_cons]
  · conv_lhs => rw [runChain]
    rw [hA]
    simp [runChain]
  · conv_lhs => rw [runChain]
    rw [hA]
    simp [runChain, Outcome.items]

/-- Witness for C2 at a primary connection error with a succeeding
fallback. -/
theorem c2_witness :
    envConnThenOk 0 PromptKind.initial
      = InvokeResult.failure TransportError.connection
    ∧ (runChain envConnThenOk abc_concept.json_schema [0, 1]).1
      = (runChain envConnThenOk abc_concept.json_schema [1]).1 :=
  ⟨rfl, (c2_fallback_hop envConnThenOk abc_concept.json_schema rfl).1⟩

/-- C4: every extraction run returns a per-concept mapping covering every
requested concept in order, each concept's entry is its own independent
chain run (so a sibling's failure cannot omit or change it), and a failed
entry surfaces an empty item sequence. -/
theorem c4_complete_mapping (env : String → Nat → PromptKind → InvokeResult)
    (chain : List Nat) (concepts : List ConceptDef) :
    ((runBatch env chain concepts).1).map Prod.fst = concepts.map ConceptDef.name
    ∧ (∀ c ∈ concepts,
        (c.name, (runChain (env c.name) c.json_schema chain).1)
          ∈ (runBatch env chain concepts).1)
    ∧ (∀ p ∈ (runBatch env chain concepts).1,
        p.2 = Outcome.failed → p.2.items = []) := by
  refine ⟨?_, ?_, fun p _ hf => by rw [hf]; rfl⟩
  · induction concepts with
    | nil => rfl
    | cons c cs ih => simpa [runBatch] using ih
  · intro c hc
    induction concepts with
    | nil => cases hc
    | cons d ds ih =>
      rcases List.mem_cons.mp hc with h | h
      · subst h
        simp [runBatch]
      · simp only [runBatch, List.mem_cons]
        exact Or.inr (ih h)

/-- Witness for C4 at the three concepts of `src/app.py` with a transport
that always answers malformed JSON: the mapping still covers all three
concept names in order. -/
theorem c4_witness :
    ((runBatch (fun _ _ _ => InvokeResult.response none) [0]
      [abc_concept, anat_concept, asymmetry_concept]).1).map Prod.fst
    = ["ABC_Staging", "Anatomical_Entities", "Anatomical_Asymmetries"] := by
  have h := (c4_complete_mapping (fun _ _ _ => InvokeResult.response none) [0]
    [abc_concept, anat_concept, asymmetry_concept]).1
  simpa [abc_concept, anat_concept, asymmetry_concept] using h

/-- C6: Document construction from empty or whitespace-only raw text fails
with the empty-document error, and the failed construction aborts the run
before any LLM call: the pipeline returns the error with an empty
invocation trace. -/
theorem c6_empty_document_fail_fast (text : String)
    (env : String → Nat → PromptKind → InvokeResult) (chain : List Nat)
    (concepts : List ConceptDef) (h : isBlank text = true) :
    mkDocument text = Except.error PipelineError.emptyDocument
    ∧ runPipeline text env chain concepts
      = (Except.error PipelineError.emptyDocument, []) := by
  have hd : mkDocument text = Except.error PipelineError.emptyDocument := by
    unfold mkDocument
    rw [h]
    rfl
  refine ⟨hd, ?_⟩
  unfold runPipeline
  rw [hd]

/-- Witness for C6 at a whitespace-only input. -/
theorem c6_witness :
    isBlank ("  \n ") = true
    ∧ runPipeline ("  \n ") (fun _ _ _ => InvokeResult.response none) [0]
        [abc_concept, anat_concept, asymmetry_concept]
      = (Except.error PipelineError.emptyDocument, []) :=
  ⟨by decide,
    (c6_empty_document_fail_fast ("  \n ")
      (fun _ _ _ => InvokeResult.response none) [0]
      [abc_concept, anat_concept, asymmetry_concept] (by decide)).2⟩

/-- C7: the shared process configuration — the concept definitions and the
descriptor chain — is left unchanged by every extraction run, and a later
run over the configuration left behind by an earlier run returns exactly
what it would return over the original configuration, so runs may be
interleaved safely. -/
theorem c7_config_read_only (cfg : ProcessConfig)
    (env : String → Nat → PromptKind → InvokeResult) (text : String) :
    (runExtraction cfg env text).2 = cfg
    ∧ ∀ (env₂ : String → Nat → PromptKind → InvokeResult) (text₂ : String),
        (runExtraction (runExtraction cfg env text).2 env₂ text₂).1
          = (runExtraction cfg env₂ text₂).1 :=
  ⟨rfl, fun _ _ => rfl⟩

/-- C8: `segment()` is idempotent — segmenting an already segmented
document changes nothing, so the span sequences of one and two calls agree
in count, texts and offsets. -/
theorem c8_segment_idempotent (d : Document) :
    segment (segment d) = segment d
    ∧ (segment (segment d)).spans = (segment d).spans :=
  ⟨rfl, rfl⟩

/-- C9: every invocation attempt, failed ones included, is recorded with
its request and response; after any run over a nonempty chain the last
exchange is available; and the debug rendering of absent metadata states
the absence instead of failing. -/
theorem c9_debug_metadata (env : Nat → PromptKind → InvokeResult)
    (schema : Schema) (chain : List Nat) (h : chain ≠ []) :
    (runChain env schema chain).2 ≠ []
    ∧ (lastExchange env (runChain env schema chain).2).isSome = true
    ∧ (exchanges env (runChain env schema chain).2).length
      = (runChain env schema chain).2.length
    ∧ debugSection [] = "\n\n[No prompt metadata available]"
    ∧ (∀ ps : List ChatPrompt, ps ≠ [] →
        debugSection ps = "\n\nLLM Prompts:\n" ++ renderPrompts ps)
    ∧ (∀ (o : String) (internal : List ChatPrompt),
        extractOutput (some o) true internal = some (o ++ debugSection internal)) := by
  have h1 : (runChain env schema chain).2 ≠ [] := by
    rcases chain with _ | ⟨d, rest⟩
    · exact absurd rfl h
    · rcases hr : runAttempt (env d) (validate schema) with ⟨r, kinds⟩
      have hk : kinds ≠ [] := by
        rcases attempt_kinds (env d) (validate schema) with h2 | h2 <;>
          rw [hr] at h2 <;> simp at h2 <;> simp [h2]
      rcases r with v | _ <;> simp [runChain, hr, hk]
  refine ⟨h1, ?_, by simp [exchanges], rfl, ?_, fun o internal => rfl⟩
  · have h2 : exchanges env (runChain env schema chain).2 ≠ [] := by
      simp [exchanges, h1]
    unfold lastExchange
    exact List.getLast?_isSome.mpr h2
  · intro ps hps
    simp [debugSection, hps]

/-- Witness for C9 over a singleton chain. -/
theorem c9_witness :
    (([0] : List Nat) ≠ [])
    ∧ (runChain envAbcOk abc_concept.json_schema [0]).2 ≠ [] :=
  ⟨by decide, (c9_debug_metadata envAbcOk abc_concept.json_schema [0] (by decide)).1⟩

/-- C10: an asymmetry item whose value carries the required structure, left
and right keys but no comment key is rendered with an empty Comment field
rather than failing, while a value missing a required key is not rendered
at all (the unconditional subscription raises). -/
theorem c10_optional_comment (v : JValue) (j : String) (refs : List Ref)
    (s l r : JValue)
    (hs : jget v ("structure") = some s) (hl : jget v ("left") = some l)
    (hr : jget v ("right") = some r) (hc : jget v ("comment") = none) :
    formatAsymItem ⟨v, j, refs⟩
      = some ("- Structure: " ++ pyStr s ++ "\n  Left: " ++ pyStr l
          ++ "\n  Right: " ++ pyStr r
          ++ "\n  Comment: " ++ "" ++ "\n"
          ++ "  Justification: " ++ j ++ "\n"
          ++ refLines ("  ") refs)
    ∧ (∀ (v₂ : JValue) (j₂ : String) (refs₂ : List Ref),
        jget v₂ ("structure") = none → formatAsymItem ⟨v₂, j₂, refs₂⟩ = none) := by
  constructor
  · unfold formatAsymItem
    rw [hs, hl, hr]
    simp [jgetD, hc]
  · intro v₂ j₂ refs₂ h₂
    rcases h3 : jget v₂ ("left") with _ | l₂ <;>
      rcases h4 : jget v₂ ("right") with _ | r₂ <;>
      simp [formatAsymItem, h₂, h3, h4]

/-- An asymmetry value with the three required keys and no comment key. -/
def asymValueNoComment : JValue :=
  .jobj [("structure", .jstr ("hippocampus")), ("left", .jstr ("atrophic")),
         ("right", .jstr ("normal"))]

/-- Witness for C10 at a concrete comment-free asymmetry value. -/
theorem c10_witness :
    jget asymValueNoComment ("structure") = some (JValue.jstr ("hippocampus"))
    ∧ jget asymValueNoComment ("comment") = none
    ∧ formatAsymItem ⟨asymValueNoComment, "noted", []⟩
      = some ("- Structure: " ++ pyStr (JValue.jstr ("hippocampus"))
          ++ "\n  Left: " ++ pyStr (JValue.jstr ("atrophic"))
          ++ "\n  Right: " ++ pyStr (JValue.jstr ("normal"))
          ++ "\n  Comment: " ++ "" ++ "\n"
          ++ "  Justification: " ++ "noted" ++ "\n"
          ++ refLines ("  ") []) :=
  ⟨rfl, rfl,
    (c10_optional_comment asymValueNoComment ("noted") []
      (JValue.jstr ("hippocampus")) (JValue.jstr ("atrophic"))
      (JValue.jstr ("normal")) rfl rfl rfl rfl).1⟩

end ContextgemDemo
